import Mathlib

/-!
Verification development for the two browser-automation scripts
`verification/verify_content.py` (`verify_kanji_content`) and
`verification/verify_dashboard.py` (`verify_kanji_dashboard`).

The scripts are straight-line Playwright drivers.  We embed them shallowly:
the page under test is abstracted into a `PageEnv` record describing how it
responds to each Playwright primitive (when elements appear, how many
elements a selector resolves to, what text each read returns, and whether a
read raises), and each script becomes a total function from a `PageEnv` to a
`RunResult`: the ordered list of observable effects (the event trace) plus
whether the script body finished normally or an uncaught exception
propagated out of it.

Playwright semantics reflected in the model:
  * `page.wait_for_selector(sel)` blocks until the selector matches, with a
    default timeout of 30000 ms when none is given, and raises
    `TimeoutError` if the bound elapses first;
  * `page.fill(sel, text)` and `page.click(sel)` auto-wait for the target
    element with the same default 30000 ms bound before acting, and raise on
    timeout;
  * `page.wait_for_timeout(ms)` sleeps unconditionally;
  * `locator.inner_text()` auto-waits for the element and raises if it never
    appears; `locator.count()` and `locator.all_inner_texts()` return
    immediately (an empty result when nothing matches);
  * `browser.close()` is an explicit effect; when an exception propagates
    out of the `with sync_playwright()` block the explicit close is skipped
    (teardown is then left to the context manager exit, which is outside the
    script body and is not a `browser.close()` call).
-/

/-- How the page under test behaves during one run.  Times are in
milliseconds, measured from the moment the corresponding wait starts.
`none` for an appear-time means the element never appears; `none` for a text
field means the corresponding `inner_text()` read raises. -/
structure PageEnv where
  /-- `page.goto` raises (navigation fault). -/
  gotoFails : Bool
  /-- when `#kanji-input` becomes present, if ever. -/
  inputAppearTime : Option Nat
  /-- when `#search-btn` becomes actionable, if ever. -/
  btnAppearTime : Option Nat
  /-- when the first `.kanji-card` appears after the click, if ever. -/
  cardAppearTime : Option Nat
  /-- how many elements `#card-会` resolves to. -/
  cardIdCount : Nat
  /-- `inner_text` of `.kanji-char` inside `#card-会` (`none` = the read raises). -/
  charText : Option String
  /-- `inner_text` of `.kanji-meaning` inside `#card-会`. -/
  meaningText : Option String
  /-- `inner_text` of `.kanji-readings` inside `#card-会`. -/
  readingsText : Option String
  /-- `all_inner_texts` of `.anchor-word` inside `#card-会`. -/
  anchorTexts : List String
  /-- `inner_text` of the first `.kanji-card` (`none` = the read raises). -/
  firstCardText : Option String
deriving DecidableEq

/-- A locator base used by a text read in `verify_kanji_content`:
either a sub-locator of `card1 = page.locator("#card-会")`, or
`page.locator(".kanji-card").first`. -/
inductive Loc where
  | cardSub (sel : String)
  | firstCard
deriving DecidableEq

/-- One line printed by either script; each constructor is one `print`
call site (one f-string template) of the source. -/
inductive OutLine where
  /-- `print(f"Card 1 Char: {char}")` -/
  | cardChar (s : String)
  /-- `print(f"Card 1 Meaning: {meaning}")` -/
  | cardMeaning (s : String)
  /-- `print(f"Card 1 Readings: {readings}")` -/
  | cardReadings (s : String)
  /-- `print(f"Card 1 Anchors: {anchors[:3]}")` -/
  | cardAnchors (xs : List String)
  /-- the fixed not-found-by-ID line printed before the fallback lookup -/
  | cardNotFound
  /-- `print(f"First Card Text: {first_card.inner_text()[:100]}")` -/
  | firstCardLine (s : String)
  /-- `print(f"Error: {e}")` in `verify_kanji_content` -/
  | contentError (s : String)
  /-- `print("Screenshot taken successfully.")` -/
  | screenshotOk
  /-- `print(f"Error waiting for results: {e}")` in `verify_kanji_dashboard` -/
  | dashboardError (s : String)
deriving DecidableEq

/-- The text a line renders to on standard output. -/
def OutLine.render : OutLine → String
  | .cardChar s => "Card 1 Char: " ++ s
  | .cardMeaning s => "Card 1 Meaning: " ++ s
  | .cardReadings s => "Card 1 Readings: " ++ s
  | .cardAnchors xs =>
      "Card 1 Anchors: [" ++
        String.intercalate ", " (xs.map fun s => "\x27" ++ s ++ "\x27") ++ "]"
  | .cardNotFound => "Card for \x27会\x27 not found by ID. Fetching first card."
  | .firstCardLine s => "First Card Text: " ++ s
  | .contentError s => "Error: " ++ s
  | .screenshotOk => "Screenshot taken successfully."
  | .dashboardError s => "Error waiting for results: " ++ s

/-- One observable effect of a run, in program order. -/
inductive Event where
  /-- `p.chromium.launch(...)` / `browser.new_page()` -/
  | launch
  /-- `page.goto(url)` -/
  | goto (url : String)
  /-- a (possibly implicit) bounded wait for `sel`, bound `timeoutMs`. -/
  | waitSelector (sel : String) (timeoutMs : Nat)
  /-- `page.fill(sel, text)` (after its auto-wait succeeded). -/
  | fill (sel text : String)
  /-- `page.click(sel)` (after its auto-wait succeeded). -/
  | click (sel : String)
  /-- `page.wait_for_timeout(ms)` -/
  | waitTimeout (ms : Nat)
  /-- `locator.inner_text()` on locator base `loc`. -/
  | readText (loc : Loc)
  /-- `locator.all_inner_texts()` on locator base `loc`. -/
  | readAllTexts (loc : Loc)
  /-- a `print(...)` call. -/
  | printed (line : OutLine)
  /-- `page.screenshot(path=..., full_page=...)` -/
  | screenshot (path : String) (fullPage : Bool)
  /-- `browser.close()` -/
  | browserClose
deriving DecidableEq

/-- How the script body ended: normal fall-through, or an exception that no
`except` clause caught propagated out of it. -/
inductive RunExit where
  | normal
  | raised (msg : String)
deriving DecidableEq

/-- The observable outcome of one run. -/
structure RunResult where
  trace : List Event
  exit : RunExit
deriving DecidableEq

/-- Does a bounded wait for an element succeed?  It does exactly when the
element appears at some time within the bound. -/
def waitOk (appear : Option Nat) (timeoutMs : Nat) : Bool :=
  match appear with
  | some t => t ≤ timeoutMs
  | none => false

/-- The `TimeoutError` message raised when a bounded wait on `sel` elapses. -/
def timeoutMsg (sel : String) (ms : Nat) : String :=
  "Timeout " ++ toString ms ++ "ms exceeded waiting for selector " ++ sel

/-- The message of the error raised by an `inner_text()` read whose element
never appears. -/
def innerTextErr (sel : String) : String :=
  "Timeout 30000ms exceeded reading inner text of " ++ sel

/-- The message of a navigation failure raised by `page.goto`. -/
def navErr : String := "net::ERR_CONNECTION_REFUSED at http://localhost:8080/kanji_dashboard.html"

/-- The URL both scripts navigate to. -/
def dashURL : String := "http://localhost:8080/kanji_dashboard.html"

/-- Python string slicing `s[:n]`: the first `n` characters (code points). -/
def pySlice (s : String) (n : Nat) : String := String.mk (s.data.take n)

/-- The body of the `try:` block of `verify_kanji_content` (source lines
17‑38): wait for `.kanji-card` (timeout 10000 ms), settle 5000 ms, then
either read the four structured fields of `#card-会` (when its count is
positive) or fall back to the text of the first card truncated to 100
characters.  Returns the events the body emits, paired with `some msg` when
it raises (the error the `except` clause then receives) and `none` when it
falls through. -/
def contentTryBody (env : PageEnv) : List Event × Option String :=
  if waitOk env.cardAppearTime 10000 then
    let pre := [Event.waitSelector ".kanji-card" 10000, Event.waitTimeout 5000]
    if env.cardIdCount > 0 then
      match env.charText with
      | none =>
          (pre ++ [Event.readText (Loc.cardSub ".kanji-char")],
           some (innerTextErr ".kanji-char"))
      | some c =>
        match env.meaningText with
        | none =>
            (pre ++ [Event.readText (Loc.cardSub ".kanji-char"),
                     Event.readText (Loc.cardSub ".kanji-meaning")],
             some (innerTextErr ".kanji-meaning"))
        | some m =>
          match env.readingsText with
          | none =>
              (pre ++ [Event.readText (Loc.cardSub ".kanji-char"),
                       Event.readText (Loc.cardSub ".kanji-meaning"),
                       Event.readText (Loc.cardSub ".kanji-readings")],
               some (innerTextErr ".kanji-readings"))
          | some r =>
              (pre ++ [Event.readText (Loc.cardSub ".kanji-char"),
                       Event.readText (Loc.cardSub ".kanji-meaning"),
                       Event.readText (Loc.cardSub ".kanji-readings"),
                       Event.printed (OutLine.cardChar c),
                       Event.printed (OutLine.cardMeaning m),
                       Event.printed (OutLine.cardReadings r),
                       Event.readAllTexts (Loc.cardSub ".anchor-word"),
                       Event.printed (OutLine.cardAnchors (env.anchorTexts.take 3))],
               none)
    else
      match env.firstCardText with
      | none =>
          (pre ++ [Event.printed OutLine.cardNotFound,
                   Event.readText Loc.firstCard],
           some (innerTextErr ".kanji-card"))
      | some s =>
          (pre ++ [Event.printed OutLine.cardNotFound,
                   Event.readText Loc.firstCard,
                   Event.printed (OutLine.firstCardLine (pySlice s 100))],
           none)
  else
    ([Event.waitSelector ".kanji-card" 10000],
     some (timeoutMsg ".kanji-card" 10000))

/-- `verify_kanji_content` (`verification/verify_content.py`): launch,
navigate, fill the search input (Playwright auto-waits for it, default
30000 ms), click the search button (same auto-wait), then run the `try:`
block; any error it raises is caught and printed as `Error: ...`; finally
`browser.close()`.  Statements before the `try:` are unprotected: if one of
them raises, the exception propagates and `browser.close()` never runs. -/
def verify_kanji_content (env : PageEnv) : RunResult :=
  let pre0 := [Event.launch, Event.goto dashURL]
  if env.gotoFails then
    { trace := pre0, exit := RunExit.raised navErr }
  else if waitOk env.inputAppearTime 30000 then
    let pre1 := pre0 ++ [Event.waitSelector "#kanji-input" 30000,
                         Event.fill "#kanji-input" "会議室"]
    if waitOk env.btnAppearTime 30000 then
      let pre2 := pre1 ++ [Event.waitSelector "#search-btn" 30000,
                           Event.click "#search-btn"]
      match contentTryBody env with
      | (evs, none) =>
          { trace := pre2 ++ evs ++ [Event.browserClose], exit := RunExit.normal }
      | (evs, some e) =>
          { trace := pre2 ++ evs ++ [Event.printed (OutLine.contentError e),
                                     Event.browserClose],
            exit := RunExit.normal }
    else
      { trace := pre1 ++ [Event.waitSelector "#search-btn" 30000],
        exit := RunExit.raised (timeoutMsg "#search-btn" 30000) }
  else
    { trace := pre0 ++ [Event.waitSelector "#kanji-input" 30000],
      exit := RunExit.raised (timeoutMsg "#kanji-input" 30000) }

/-- The body of the `try:` block of `verify_kanji_dashboard` (source lines
20‑31): wait for `.kanji-card` (timeout 10000 ms), settle 5000 ms, take a
full-page screenshot at the result path, and report success. -/
def dashboardTryBody (env : PageEnv) : List Event × Option String :=
  if waitOk env.cardAppearTime 10000 then
    ([Event.waitSelector ".kanji-card" 10000, Event.waitTimeout 5000,
      Event.screenshot "verification/dashboard_result.png" true,
      Event.printed OutLine.screenshotOk], none)
  else
    ([Event.waitSelector ".kanji-card" 10000],
     some (timeoutMsg ".kanji-card" 10000))

/-- `verify_kanji_dashboard` (`verification/verify_dashboard.py`): launch,
navigate, explicitly `wait_for_selector("#kanji-input")` (default 30000 ms
bound), fill the input (its own auto-wait runs again), click the button,
then run the `try:` block; on an error from it, print
`Error waiting for results: ...` and take a screenshot at the error path;
finally `browser.close()`.  As in `verify_kanji_content`, statements before
the `try:` are unprotected. -/
def verify_kanji_dashboard (env : PageEnv) : RunResult :=
  let pre0 := [Event.launch, Event.goto dashURL]
  if env.gotoFails then
    { trace := pre0, exit := RunExit.raised navErr }
  else if waitOk env.inputAppearTime 30000 then
    let pre1 := pre0 ++ [Event.waitSelector "#kanji-input" 30000,
                         Event.waitSelector "#kanji-input" 30000,
                         Event.fill "#kanji-input" "会議室"]
    if waitOk env.btnAppearTime 30000 then
      let pre2 := pre1 ++ [Event.waitSelector "#search-btn" 30000,
                           Event.click "#search-btn"]
      match dashboardTryBody env with
      | (evs, none) =>
          { trace := pre2 ++ evs ++ [Event.browserClose], exit := RunExit.normal }
      | (evs, some e) =>
          { trace := pre2 ++ evs ++
              [Event.printed (OutLine.dashboardError e),
               Event.screenshot "verification/dashboard_error.png" false,
               Event.browserClose],
            exit := RunExit.normal }
    else
      { trace := pre1 ++ [Event.waitSelector "#search-btn" 30000],
        exit := RunExit.raised (timeoutMsg "#search-btn" 30000) }
  else
    { trace := pre0 ++ [Event.waitSelector "#kanji-input" 30000],
      exit := RunExit.raised (timeoutMsg "#kanji-input" 30000) }

/-- Time consumed by a bounded wait, given the appear time of the element: the
appear time when it is within the bound, the full bound otherwise. -/
def waitForSelectorElapsed (appear : Option Nat) (timeoutMs : Nat) : Nat :=
  match appear with
  | some t => min t timeoutMs
  | none => timeoutMs

/-- Time consumed by the two-phase stable-results wait
(`page.wait_for_selector(".kanji-card", timeout=...)` followed by
`page.wait_for_timeout(...)`): the presence wait always runs; the settle
delay runs only when the presence wait succeeded (on timeout the raise
skips it). -/
def await_stable_results_elapsed (appear : Option Nat)
    (firstWaitTimeoutMs settleDelayMs : Nat) : Nat :=
  waitForSelectorElapsed appear firstWaitTimeoutMs +
    (if waitOk appear firstWaitTimeoutMs then settleDelayMs else 0)

/-- Marks the line that announces a structured record (the first of its four
lines). -/
def isStructuredMark (e : Event) : Bool :=
  match e with
  | .printed (.cardChar _) => true
  | _ => false

/-- Marks the line that reports a fallback excerpt. -/
def isFallbackMark (e : Event) : Bool :=
  match e with
  | .printed (.firstCardLine _) => true
  | _ => false

/-- Number of structured-record reports in a trace. -/
def structuredCount (tr : List Event) : Nat := (tr.filter isStructuredMark).length

/-- Number of fallback-excerpt reports in a trace. -/
def fallbackCount (tr : List Event) : Nat := (tr.filter isFallbackMark).length

/-- Is the event a `browser.close()` call? -/
def isClose (e : Event) : Bool :=
  match e with
  | .browserClose => true
  | _ => false

/-- Is the event a session launch? -/
def isLaunch (e : Event) : Bool :=
  match e with
  | .launch => true
  | _ => false

/-- Number of `browser.close()` calls in a trace. -/
def closeCount (tr : List Event) : Nat := (tr.filter isClose).length

/-- Number of session launches in a trace. -/
def launchCount (tr : List Event) : Nat := (tr.filter isLaunch).length

/-- Is the event a screenshot capture? -/
def isScreenshotEv (e : Event) : Bool :=
  match e with
  | .screenshot _ _ => true
  | _ => false

/-- The screenshot events of a trace, in order. -/
def screenshots (tr : List Event) : List Event := tr.filter isScreenshotEv

/-- Everything a run prints, in order. -/
def reportLines (tr : List Event) : List OutLine :=
  tr.filterMap fun e =>
    match e with
    | .printed l => some l
    | _ => none

/-- Is the event a text read from the `#card-会` subtree? -/
def isCardSubtreeRead (e : Event) : Bool :=
  match e with
  | .readText (.cardSub _) => true
  | .readAllTexts (.cardSub _) => true
  | _ => false

/-- The reads a run performs on the `#card-会` subtree, in order. -/
def cardSubtreeReads (tr : List Event) : List Event := tr.filter isCardSubtreeRead

/-- What `verify_kanji_content` prints after reaching the result wait, as a
function of the content fields of the page alone (timings do not occur). -/
def contentReport (cnt : Nat) (ct mt rt : Option String) (anchors : List String)
    (fct : Option String) : List OutLine :=
  if cnt > 0 then
    match ct with
    | none => [OutLine.contentError (innerTextErr ".kanji-char")]
    | some c =>
      match mt with
      | none => [OutLine.contentError (innerTextErr ".kanji-meaning")]
      | some m =>
        match rt with
        | none => [OutLine.contentError (innerTextErr ".kanji-readings")]
        | some r =>
            [OutLine.cardChar c, OutLine.cardMeaning m, OutLine.cardReadings r,
             OutLine.cardAnchors (anchors.take 3)]
  else
    match fct with
    | none => [OutLine.cardNotFound, OutLine.contentError (innerTextErr ".kanji-card")]
    | some s => [OutLine.cardNotFound, OutLine.firstCardLine (pySlice s 100)]

/-- A healthy page: everything appears promptly, `#card-会` resolves, and all
sub-element reads succeed. -/
def envHealthy : PageEnv :=
  { gotoFails := false
    inputAppearTime := some 50
    btnAppearTime := some 50
    cardAppearTime := some 1200
    cardIdCount := 1
    charText := some "会"
    meaningText := some "meeting"
    readingsText := some "カイ, エ"
    anchorTexts := ["会議", "会社", "社会", "大会"]
    firstCardText := some "会 meeting カイ, エ 会議 会社 社会 大会" }

/-- A healthy page on a slower run: same content, different timings. -/
def envHealthySlow : PageEnv :=
  { envHealthy with inputAppearTime := some 400, cardAppearTime := some 9000 }

/-- A page where no element has id `card-会` but result cards exist. -/
def envMismatch : PageEnv := { envHealthy with cardIdCount := 0 }

/-- A page that never produces any result card. -/
def envNoCards : PageEnv := { envHealthy with cardAppearTime := none }

/-- A page whose matched card lacks a readable `.kanji-meaning` element. -/
def envBrokenCard : PageEnv := { envHealthy with meaningText := none }

/-- A run whose navigation fails. -/
def envNavFault : PageEnv := { envHealthy with gotoFails := true }

theorem closeCount_append (a b : List Event) :
    closeCount (a ++ b) = closeCount a + closeCount b := by
  simp [closeCount, List.filter_append]

theorem launchCount_append (a b : List Event) :
    launchCount (a ++ b) = launchCount a + launchCount b := by
  simp [launchCount, List.filter_append]

theorem contentTryBody_no_close (env : PageEnv) :
    closeCount (contentTryBody env).1 = 0 := by
  unfold contentTryBody
  repeat' split
  all_goals simp [closeCount, isClose]

theorem contentTryBody_no_launch (env : PageEnv) :
    launchCount (contentTryBody env).1 = 0 := by
  unfold contentTryBody
  repeat' split
  all_goals simp [launchCount, isLaunch]

theorem dashboardTryBody_no_close (env : PageEnv) :
    closeCount (dashboardTryBody env).1 = 0 := by
  unfold dashboardTryBody
  repeat' split
  all_goals simp [closeCount, isClose]

theorem dashboardTryBody_no_launch (env : PageEnv) :
    launchCount (dashboardTryBody env).1 = 0 := by
  unfold dashboardTryBody
  repeat' split
  all_goals simp [launchCount, isLaunch]

/-- C5: the two-phase stable-results wait returns within
`first_wait_timeout_ms + settle_delay_ms` for every input, including pages
that never produce a result card, and its presence phase alone is bounded by
the explicit 10000 ms timeout. -/
theorem await_stable_results_bounded (appear : Option Nat) :
    await_stable_results_elapsed appear 10000 5000 ≤ 10000 + 5000 ∧
    waitForSelectorElapsed appear 10000 ≤ 10000 := by
  cases appear with
  | none => simp [await_stable_results_elapsed, waitForSelectorElapsed, waitOk]
  | some t =>
    by_cases h : t ≤ 10000 <;>
      simp [await_stable_results_elapsed, waitForSelectorElapsed, waitOk, h]

theorem await_stable_results_bounded_wit :
    await_stable_results_elapsed (some 3000) 10000 5000 ≤ 10000 + 5000 ∧
    waitForSelectorElapsed (some 3000) 10000 ≤ 10000 :=
  await_stable_results_bounded (some 3000)

/-- C1 counterexample: `envBrokenCard` is inside the scope of the claimed
dichotomy — the run reaches extraction, a result card appears within the
10000 ms timeout, and `#card-会` resolves — yet the run reports neither a
structured record nor a fallback excerpt (the raising `.kanji-meaning` read
diverts it to the error line), refuting "never neither". -/
theorem extract_record_neither_outcome :
    envBrokenCard.gotoFails = false ∧
    waitOk envBrokenCard.inputAppearTime 30000 = true ∧
    waitOk envBrokenCard.btnAppearTime 30000 = true ∧
    waitOk envBrokenCard.cardAppearTime 10000 = true ∧
    0 < envBrokenCard.cardIdCount ∧
    structuredCount (verify_kanji_content envBrokenCard).trace = 0 ∧
    fallbackCount (verify_kanji_content envBrokenCard).trace = 0 := by
  decide

/-- C1 (amended): on any run that reaches the extraction step and in which at
least one result card appears within the 10000 ms timeout, the extraction
reports exactly one structured record (and no fallback) when `#card-会`
resolves to at least one element and its three sub-element reads succeed,
exactly one fallback excerpt (and no structured record) when `#card-会`
resolves to none and the first-card read succeeds, and neither outcome —
only an error line — when `#card-会` resolves but one of its sub-element
reads raises. -/
theorem extract_record_dichotomy (env : PageEnv)
    (hg : env.gotoFails = false)
    (hi : waitOk env.inputAppearTime 30000 = true)
    (hb : waitOk env.btnAppearTime 30000 = true)
    (hc : waitOk env.cardAppearTime 10000 = true) :
    (0 < env.cardIdCount →
        (env.charText.isSome ∧ env.meaningText.isSome ∧ env.readingsText.isSome →
          structuredCount (verify_kanji_content env).trace = 1 ∧
          fallbackCount (verify_kanji_content env).trace = 0) ∧
        ((env.charText = none ∨ env.meaningText = none ∨ env.readingsText = none) →
          structuredCount (verify_kanji_content env).trace = 0 ∧
          fallbackCount (verify_kanji_content env).trace = 0)) ∧
    (env.cardIdCount = 0 → env.firstCardText.isSome →
        structuredCount (verify_kanji_content env).trace = 0 ∧
        fallbackCount (verify_kanji_content env).trace = 1) := by
  constructor
  · intro hpos
    constructor
    · rintro ⟨h1, h2, h3⟩
      obtain ⟨c, hc1⟩ := Option.isSome_iff_exists.mp h1
      obtain ⟨m, hc2⟩ := Option.isSome_iff_exists.mp h2
      obtain ⟨r, hc3⟩ := Option.isSome_iff_exists.mp h3
      simp [verify_kanji_content, contentTryBody, hg, hi, hb, hc, hc1, hc2, hc3,
            hpos, structuredCount, fallbackCount, isStructuredMark, isFallbackMark]
    · intro hbroken
      rcases hct : env.charText with _ | c
      · simp [verify_kanji_content, contentTryBody, hg, hi, hb, hc, hpos, hct,
              structuredCount, fallbackCount, isStructuredMark, isFallbackMark]
      · rcases hmt : env.meaningText with _ | m
        · simp [verify_kanji_content, contentTryBody, hg, hi, hb, hc, hpos, hct,
                hmt, structuredCount, fallbackCount, isStructuredMark,
                isFallbackMark]
        · rcases hrt : env.readingsText with _ | r
          · simp [verify_kanji_content, contentTryBody, hg, hi, hb, hc, hpos,
                  hct, hmt, hrt, structuredCount, fallbackCount,
                  isStructuredMark, isFallbackMark]
          · rcases hbroken with h | h | h
            · rw [hct] at h; exact Option.noConfusion h
            · rw [hmt] at h; exact Option.noConfusion h
            · rw [hrt] at h; exact Option.noConfusion h
  · intro hzero hfs
    obtain ⟨s, hs⟩ := Option.isSome_iff_exists.mp hfs
    simp [verify_kanji_content, contentTryBody, hg, hi, hb, hc, hs, hzero,
          structuredCount, fallbackCount, isStructuredMark, isFallbackMark]

theorem extract_record_dichotomy_wit :
    ((0 < envHealthy.cardIdCount →
        (envHealthy.charText.isSome ∧ envHealthy.meaningText.isSome ∧
            envHealthy.readingsText.isSome →
          structuredCount (verify_kanji_content envHealthy).trace = 1 ∧
          fallbackCount (verify_kanji_content envHealthy).trace = 0) ∧
        ((envHealthy.charText = none ∨ envHealthy.meaningText = none ∨
            envHealthy.readingsText = none) →
          structuredCount (verify_kanji_content envHealthy).trace = 0 ∧
          fallbackCount (verify_kanji_content envHealthy).trace = 0)) ∧
     (envHealthy.cardIdCount = 0 → envHealthy.firstCardText.isSome →
        structuredCount (verify_kanji_content envHealthy).trace = 0 ∧
        fallbackCount (verify_kanji_content envHealthy).trace = 1)) :=
  extract_record_dichotomy envHealthy rfl (by decide) (by decide) (by decide)

/-- C2 counterexample: the navigation-fault run is an unhandled-exception
exit path of both routines, and on it `browser.close()` is executed zero
times, not exactly once. -/
theorem session_close_skipped_on_fault :
    closeCount (verify_kanji_content envNavFault).trace = 0 ∧
    (verify_kanji_content envNavFault).exit = RunExit.raised navErr ∧
    closeCount (verify_kanji_dashboard envNavFault).trace = 0 ∧
    (verify_kanji_dashboard envNavFault).exit = RunExit.raised navErr := by
  decide

/-- C2 (amended): each routine launches exactly one session per run, and on
every run that reaches the result wait — which covers normal completion, the
timeout path, the identifier-mismatch path, and every exception raised
inside the try block — `browser.close()` runs exactly once; on an
unhandled-exception path before the try block the explicit close is
skipped (teardown is left to the context-manager exit). -/
theorem session_closed_once_when_wait_reached (env : PageEnv)
    (hg : env.gotoFails = false)
    (hi : waitOk env.inputAppearTime 30000 = true)
    (hb : waitOk env.btnAppearTime 30000 = true) :
    launchCount (verify_kanji_content env).trace = 1 ∧
    closeCount (verify_kanji_content env).trace = 1 ∧
    launchCount (verify_kanji_dashboard env).trace = 1 ∧
    closeCount (verify_kanji_dashboard env).trace = 1 := by
  have hc1 := contentTryBody_no_close env
  have hl1 := contentTryBody_no_launch env
  have hc2 := dashboardTryBody_no_close env
  have hl2 := dashboardTryBody_no_launch env
  rcases hsc : contentTryBody env with ⟨evs1, err1⟩
  rcases hsd : dashboardTryBody env with ⟨evs2, err2⟩
  rw [hsc] at hc1 hl1
  rw [hsd] at hc2 hl2
  simp only [closeCount, launchCount] at hc1 hl1 hc2 hl2
  cases err1 <;> cases err2 <;>
    simp [verify_kanji_content, verify_kanji_dashboard, hg, hi, hb, hsc, hsd,
          closeCount, launchCount, isClose, isLaunch, List.filter_append,
          hc1, hl1, hc2, hl2]

theorem session_closed_once_when_wait_reached_wit :
    launchCount (verify_kanji_content envMismatch).trace = 1 ∧
    closeCount (verify_kanji_content envMismatch).trace = 1 ∧
    launchCount (verify_kanji_dashboard envMismatch).trace = 1 ∧
    closeCount (verify_kanji_dashboard envMismatch).trace = 1 :=
  session_closed_once_when_wait_reached envMismatch (by decide) (by decide) (by decide)

/-- C3: when no `.kanji-card` appears within 10000 ms in
`verify_kanji_dashboard`, the timeout is caught (the run exits normally
rather than raising), a diagnostic screenshot is still taken at the
designated error path, and the session is closed. -/
theorem dashboard_timeout_recovery (env : PageEnv)
    (hg : env.gotoFails = false)
    (hi : waitOk env.inputAppearTime 30000 = true)
    (hb : waitOk env.btnAppearTime 30000 = true)
    (hto : waitOk env.cardAppearTime 10000 = false) :
    (verify_kanji_dashboard env).exit = RunExit.normal ∧
    Event.screenshot "verification/dashboard_error.png" false ∈
      (verify_kanji_dashboard env).trace ∧
    closeCount (verify_kanji_dashboard env).trace = 1 := by
  simp [verify_kanji_dashboard, dashboardTryBody, hg, hi, hb, hto,
        closeCount, isClose]

theorem dashboard_timeout_recovery_wit :
    (verify_kanji_dashboard envNoCards).exit = RunExit.normal ∧
    Event.screenshot "verification/dashboard_error.png" false ∈
      (verify_kanji_dashboard envNoCards).trace ∧
    closeCount (verify_kanji_dashboard envNoCards).trace = 1 :=
  dashboard_timeout_recovery envNoCards (by decide) (by decide) (by decide) (by decide)

/-- C4: when `#card-会` resolves to zero elements but a result card appeared
within the timeout, `verify_kanji_content` does not fail: it exits normally
and reports the text of the first result card truncated to at most 100
characters. -/
theorem fallback_first_card_excerpt (env : PageEnv) (s : String)
    (hg : env.gotoFails = false)
    (hi : waitOk env.inputAppearTime 30000 = true)
    (hb : waitOk env.btnAppearTime 30000 = true)
    (hc : waitOk env.cardAppearTime 10000 = true)
    (hzero : env.cardIdCount = 0)
    (hs : env.firstCardText = some s) :
    (verify_kanji_content env).exit = RunExit.normal ∧
    Event.printed (OutLine.firstCardLine (pySlice s 100)) ∈
      (verify_kanji_content env).trace ∧
    (pySlice s 100).length ≤ 100 := by
  refine ⟨?_, ?_, ?_⟩
  · simp [verify_kanji_content, contentTryBody, hg, hi, hb, hc, hzero, hs]
  · simp [verify_kanji_content, contentTryBody, hg, hi, hb, hc, hzero, hs]
  · have h100 : (pySlice s 100).length = (s.data.take 100).length := rfl
    rw [h100, List.length_take]
    omega

theorem fallback_first_card_excerpt_wit :
    (verify_kanji_content envMismatch).exit = RunExit.normal ∧
    Event.printed (OutLine.firstCardLine
        (pySlice "会 meeting カイ, エ 会議 会社 社会 大会" 100)) ∈
      (verify_kanji_content envMismatch).trace ∧
    (pySlice "会 meeting カイ, エ 会議 会社 社会 大会" 100).length ≤ 100 :=
  fallback_first_card_excerpt envMismatch "会 meeting カイ, エ 会議 会社 社会 大会"
    (by decide) (by decide) (by decide) (by decide) (by decide) (by decide)

/-- C6 counterexample: at `envBrokenCard` — the run reaches extraction, a
result card appears within the timeout, and `#card-会` resolves — only two
reads of the card subtree occur: the `.kanji-meaning` read raises and ends
the step, refuting "reads exactly four fields". -/
theorem structured_extraction_two_reads :
    envBrokenCard.gotoFails = false ∧
    waitOk envBrokenCard.inputAppearTime 30000 = true ∧
    waitOk envBrokenCard.btnAppearTime 30000 = true ∧
    waitOk envBrokenCard.cardAppearTime 10000 = true ∧
    0 < envBrokenCard.cardIdCount ∧
    cardSubtreeReads (verify_kanji_content envBrokenCard).trace =
      [Event.readText (Loc.cardSub ".kanji-char"),
       Event.readText (Loc.cardSub ".kanji-meaning")] := by
  decide

/-- C6 (amended): when `#card-会` resolves (count > 0), the run reaches
extraction, and each of the three sub-element text reads succeeds, the reads
performed on the card subtree are exactly four — the primary character text,
the meaning text, the readings text, and the repeated anchor-word texts —
and the anchors reported are the first at most three of them. -/
theorem structured_extraction_fields (env : PageEnv) (c m r : String)
    (hg : env.gotoFails = false)
    (hi : waitOk env.inputAppearTime 30000 = true)
    (hb : waitOk env.btnAppearTime 30000 = true)
    (hc : waitOk env.cardAppearTime 10000 = true)
    (hpos : 0 < env.cardIdCount)
    (h1 : env.charText = some c)
    (h2 : env.meaningText = some m)
    (h3 : env.readingsText = some r) :
    cardSubtreeReads (verify_kanji_content env).trace =
      [Event.readText (Loc.cardSub ".kanji-char"),
       Event.readText (Loc.cardSub ".kanji-meaning"),
       Event.readText (Loc.cardSub ".kanji-readings"),
       Event.readAllTexts (Loc.cardSub ".anchor-word")] ∧
    Event.printed (OutLine.cardChar c) ∈ (verify_kanji_content env).trace ∧
    Event.printed (OutLine.cardMeaning m) ∈ (verify_kanji_content env).trace ∧
    Event.printed (OutLine.cardReadings r) ∈ (verify_kanji_content env).trace ∧
    Event.printed (OutLine.cardAnchors (env.anchorTexts.take 3)) ∈
      (verify_kanji_content env).trace ∧
    (env.anchorTexts.take 3).length ≤ 3 := by
  refine ⟨?_, ?_, ?_, ?_, ?_, ?_⟩
  · simp [verify_kanji_content, contentTryBody, cardSubtreeReads,
          isCardSubtreeRead, hg, hi, hb, hc, hpos, h1, h2, h3]
  · simp [verify_kanji_content, contentTryBody, hg, hi, hb, hc, hpos, h1, h2, h3]
  · simp [verify_kanji_content, contentTryBody, hg, hi, hb, hc, hpos, h1, h2, h3]
  · simp [verify_kanji_content, contentTryBody, hg, hi, hb, hc, hpos, h1, h2, h3]
  · simp [verify_kanji_content, contentTryBody, hg, hi, hb, hc, hpos, h1, h2, h3]
  · rw [List.length_take]
    omega

theorem structured_extraction_fields_wit :
    cardSubtreeReads (verify_kanji_content envHealthy).trace =
      [Event.readText (Loc.cardSub ".kanji-char"),
       Event.readText (Loc.cardSub ".kanji-meaning"),
       Event.readText (Loc.cardSub ".kanji-readings"),
       Event.readAllTexts (Loc.cardSub ".anchor-word")] ∧
    Event.printed (OutLine.cardChar "会") ∈ (verify_kanji_content envHealthy).trace ∧
    Event.printed (OutLine.cardMeaning "meeting") ∈ (verify_kanji_content envHealthy).trace ∧
    Event.printed (OutLine.cardReadings "カイ, エ") ∈ (verify_kanji_content envHealthy).trace ∧
    Event.printed (OutLine.cardAnchors (envHealthy.anchorTexts.take 3)) ∈
      (verify_kanji_content envHealthy).trace ∧
    (envHealthy.anchorTexts.take 3).length ≤ 3 :=
  structured_extraction_fields envHealthy "会" "meeting" "カイ, エ"
    (by decide) (by decide) (by decide) (by decide) (by decide)
    (by decide) (by decide) (by decide)

/-- C7: in both routines, once the run passes navigation, a bounded
(30000 ms) wait for the presence of the search input precedes the fill, the
fill of the query text precedes the click, and the click targets the
trigger control — exhibited by the literal prefix of the event trace. -/
theorem search_interaction_order (env : PageEnv)
    (hg : env.gotoFails = false)
    (hi : waitOk env.inputAppearTime 30000 = true)
    (hb : waitOk env.btnAppearTime 30000 = true) :
    (∃ rest, (verify_kanji_content env).trace =
      [Event.launch, Event.goto dashURL,
       Event.waitSelector "#kanji-input" 30000,
       Event.fill "#kanji-input" "会議室",
       Event.waitSelector "#search-btn" 30000,
       Event.click "#search-btn"] ++ rest) ∧
    (∃ rest, (verify_kanji_dashboard env).trace =
      [Event.launch, Event.goto dashURL,
       Event.waitSelector "#kanji-input" 30000,
       Event.waitSelector "#kanji-input" 30000,
       Event.fill "#kanji-input" "会議室",
       Event.waitSelector "#search-btn" 30000,
       Event.click "#search-btn"] ++ rest) := by
  constructor
  · rcases hsc : contentTryBody env with ⟨evs, err⟩
    cases err with
    | none =>
        exact ⟨evs ++ [Event.browserClose],
          by simp [verify_kanji_content, hg, hi, hb, hsc]⟩
    | some e =>
        exact ⟨evs ++ [Event.printed (OutLine.contentError e), Event.browserClose],
          by simp [verify_kanji_content, hg, hi, hb, hsc]⟩
  · rcases hsd : dashboardTryBody env with ⟨evs, err⟩
    cases err with
    | none =>
        exact ⟨evs ++ [Event.browserClose],
          by simp [verify_kanji_dashboard, hg, hi, hb, hsd]⟩
    | some e =>
        exact ⟨evs ++ [Event.printed (OutLine.dashboardError e),
                       Event.screenshot "verification/dashboard_error.png" false,
                       Event.browserClose],
          by simp [verify_kanji_dashboard, hg, hi, hb, hsd]⟩

theorem search_interaction_order_wit :
    (∃ rest, (verify_kanji_content envHealthy).trace =
      [Event.launch, Event.goto dashURL,
       Event.waitSelector "#kanji-input" 30000,
       Event.fill "#kanji-input" "会議室",
       Event.waitSelector "#search-btn" 30000,
       Event.click "#search-btn"] ++ rest) ∧
    (∃ rest, (verify_kanji_dashboard envHealthy).trace =
      [Event.launch, Event.goto dashURL,
       Event.waitSelector "#kanji-input" 30000,
       Event.waitSelector "#kanji-input" 30000,
       Event.fill "#kanji-input" "会議室",
       Event.waitSelector "#search-btn" 30000,
       Event.click "#search-btn"] ++ rest) :=
  search_interaction_order envHealthy (by decide) (by decide) (by decide)

theorem reportLines_content_run (env : PageEnv)
    (hg : env.gotoFails = false)
    (hi : waitOk env.inputAppearTime 30000 = true)
    (hb : waitOk env.btnAppearTime 30000 = true)
    (hc : waitOk env.cardAppearTime 10000 = true) :
    reportLines (verify_kanji_content env).trace =
      contentReport env.cardIdCount env.charText env.meaningText
        env.readingsText env.anchorTexts env.firstCardText := by
  rcases hct : env.charText with _ | c <;>
  rcases hmt : env.meaningText with _ | m <;>
  rcases hrt : env.readingsText with _ | r <;>
  rcases hft : env.firstCardText with _ | s <;>
  by_cases hpos : 0 < env.cardIdCount <;>
    simp [verify_kanji_content, contentTryBody, contentReport, reportLines,
          hg, hi, hb, hc, hct, hmt, hrt, hft, hpos]

/-- C8: two runs of `verify_kanji_content` against an unchanged page (same
resolved counts and same element texts; timings may differ) with the same
query report identical lines — in particular the same structured record
character, meaning and readings. -/
theorem verification_idempotent (env₁ env₂ : PageEnv)
    (hg₁ : env₁.gotoFails = false)
    (hi₁ : waitOk env₁.inputAppearTime 30000 = true)
    (hb₁ : waitOk env₁.btnAppearTime 30000 = true)
    (hc₁ : waitOk env₁.cardAppearTime 10000 = true)
    (hg₂ : env₂.gotoFails = false)
    (hi₂ : waitOk env₂.inputAppearTime 30000 = true)
    (hb₂ : waitOk env₂.btnAppearTime 30000 = true)
    (hc₂ : waitOk env₂.cardAppearTime 10000 = true)
    (hcnt : env₁.cardIdCount = env₂.cardIdCount)
    (hch : env₁.charText = env₂.charText)
    (hme : env₁.meaningText = env₂.meaningText)
    (hre : env₁.readingsText = env₂.readingsText)
    (han : env₁.anchorTexts = env₂.anchorTexts)
    (hfc : env₁.firstCardText = env₂.firstCardText) :
    reportLines (verify_kanji_content env₁).trace =
      reportLines (verify_kanji_content env₂).trace := by
  rw [reportLines_content_run env₁ hg₁ hi₁ hb₁ hc₁,
      reportLines_content_run env₂ hg₂ hi₂ hb₂ hc₂,
      hcnt, hch, hme, hre, han, hfc]

theorem verification_idempotent_wit :
    reportLines (verify_kanji_content envHealthy).trace =
      reportLines (verify_kanji_content envHealthySlow).trace :=
  verification_idempotent envHealthy envHealthySlow
    (by decide) (by decide) (by decide) (by decide)
    (by decide) (by decide) (by decide) (by decide)
    (by decide) (by decide) (by decide) (by decide) (by decide) (by decide)

/-- C9: the catch-all handler of `verify_kanji_content` wraps the whole
extraction step: when `#card-会` resolves but one of the sub-element text
reads raises, the exception is caught, an error line is printed, and the
run still closes the session and exits normally. -/
theorem catch_wraps_extraction (env : PageEnv)
    (hg : env.gotoFails = false)
    (hi : waitOk env.inputAppearTime 30000 = true)
    (hb : waitOk env.btnAppearTime 30000 = true)
    (hc : waitOk env.cardAppearTime 10000 = true)
    (hpos : 0 < env.cardIdCount)
    (hbroken : env.charText = none ∨ env.meaningText = none ∨
      env.readingsText = none) :
    (verify_kanji_content env).exit = RunExit.normal ∧
    (∃ msg, Event.printed (OutLine.contentError msg) ∈
      (verify_kanji_content env).trace) ∧
    closeCount (verify_kanji_content env).trace = 1 := by
  rcases hct : env.charText with _ | c
  · refine ⟨?_, ⟨innerTextErr ".kanji-char", ?_⟩, ?_⟩ <;>
      simp [verify_kanji_content, contentTryBody, hg, hi, hb, hc, hpos, hct,
            closeCount, isClose]
  · rcases hmt : env.meaningText with _ | m
    · refine ⟨?_, ⟨innerTextErr ".kanji-meaning", ?_⟩, ?_⟩ <;>
        simp [verify_kanji_content, contentTryBody, hg, hi, hb, hc, hpos, hct,
              hmt, closeCount, isClose]
    · rcases hrt : env.readingsText with _ | r
      · refine ⟨?_, ⟨innerTextErr ".kanji-readings", ?_⟩, ?_⟩ <;>
          simp [verify_kanji_content, contentTryBody, hg, hi, hb, hc, hpos, hct,
                hmt, hrt, closeCount, isClose]
      · rcases hbroken with h | h | h
        · rw [hct] at h; exact Option.noConfusion h
        · rw [hmt] at h; exact Option.noConfusion h
        · rw [hrt] at h; exact Option.noConfusion h

theorem catch_wraps_extraction_wit :
    (verify_kanji_content envBrokenCard).exit = RunExit.normal ∧
    (∃ msg, Event.printed (OutLine.contentError msg) ∈
      (verify_kanji_content envBrokenCard).trace) ∧
    closeCount (verify_kanji_content envBrokenCard).trace = 1 :=
  catch_wraps_extraction envBrokenCard (by decide) (by decide) (by decide)
    (by decide) (by decide) (Or.inr (Or.inl (by decide)))

/-- C10: on the timeout path of `verify_kanji_content` (no `.kanji-card`
within 10000 ms), the only line the run prints is the single error message,
and no screenshot is attempted. -/
theorem content_timeout_silent (env : PageEnv)
    (hg : env.gotoFails = false)
    (hi : waitOk env.inputAppearTime 30000 = true)
    (hb : waitOk env.btnAppearTime 30000 = true)
    (hto : waitOk env.cardAppearTime 10000 = false) :
    reportLines (verify_kanji_content env).trace =
      [OutLine.contentError (timeoutMsg ".kanji-card" 10000)] ∧
    screenshots (verify_kanji_content env).trace = [] := by
  constructor <;>
    simp [verify_kanji_content, contentTryBody, hg, hi, hb, hto,
          reportLines, screenshots, isScreenshotEv]

theorem content_timeout_silent_wit :
    reportLines (verify_kanji_content envNoCards).trace =
      [OutLine.contentError (timeoutMsg ".kanji-card" 10000)] ∧
    screenshots (verify_kanji_content envNoCards).trace = [] :=
  content_timeout_silent envNoCards (by decide) (by decide) (by decide) (by decide)
